import Mathlib

/-!
Verification of the tfhe-gps-distance pipeline against its specification.

The repository contains two pipeline variants built on TFHE FheUint32
ciphertexts:
* `src/main.rs` — degree-scaled encoding, degree-6 polynomial, average-cosine
  weighting, non-strict final comparison (`le`);
* `src/bin/approach2.rs` — radian-scaled encoding, degree-10 Maclaurin series,
  cosine-product weighting, strict final comparison (`lt`).

Homomorphic FheUint32 arithmetic is modelled on plaintexts as natural numbers
with explicit reduction modulo 2^32: addition, subtraction and
ciphertext-by-ciphertext multiplication wrap modulo 2^32; division and
comparison against a public constant act on the plaintext value directly,
exactly as TFHE evaluates them.  The client-side encoders, written in Rust
over f64, are modelled over ℚ with exact rational arithmetic (the standard
real-arithmetic idealisation of the float computation); the `as u32` cast is
modelled exactly: it truncates toward zero and saturates at 0 below and at
2^32 - 1 above.  `std::f64::consts::PI` is modelled by the exact rational
value of that f64 constant.
-/

/-- Modulus of the FheUint32 ciphertext integer type: 2^32. -/
def U32_MOD : ℕ := 4294967296

/-- Fixed-point scale factor M, `SCALE_FACTOR` in both variants. -/
def SCALE_FACTOR : ℕ := 1000000

/-- Wrapping addition of two FheUint32 plaintext values. -/
def wadd (a b : ℕ) : ℕ := (a + b) % U32_MOD

/-- Wrapping subtraction of two FheUint32 plaintext values (valid for
arguments below the modulus, as all ciphertext plaintexts are). -/
def wsub (a b : ℕ) : ℕ := (a + U32_MOD - b) % U32_MOD

/-- Wrapping ciphertext-by-ciphertext (or ciphertext-by-constant)
multiplication of FheUint32 plaintext values. -/
def wmul (a b : ℕ) : ℕ := a * b % U32_MOD

/-- Encrypted point data of `src/main.rs` (`ClientData`): scaled latitude
degrees, scaled normalized longitude degrees, affinely scaled sine and
cosine of the latitude.  We model the plaintexts carried by the
ciphertexts. -/
structure ClientData1 where
  lat : ℕ
  lon : ℕ
  sin_lat : ℕ
  cos_lat : ℕ
deriving DecidableEq

/-- Encrypted point data of `src/bin/approach2.rs` (`ClientData`): scaled
latitude radians, scaled longitude radians, affinely scaled sine and cosine
of the latitude. -/
structure ClientData2 where
  lat_rad : ℕ
  lon_rad : ℕ
  sin_lat : ℕ
  cos_lat : ℕ
deriving DecidableEq

/-- Latitude delta of `src/main.rs` line 97:
`(&p1.lat - &p2.lat).min(&(&p2.lat - &p1.lat))`. -/
def delta_lat1 (a b : ℕ) : ℕ := min (wsub a b) (wsub b a)

/-- One full turn at the degree scale of `src/main.rs` line 103:
`360_u32 * SCALE_FACTOR`. -/
def full_circle : ℕ := 360 * SCALE_FACTOR

/-- Longitude delta of `src/main.rs` lines 102-107: the min-of-both-orders
difference folded against the complementary path around the full turn. -/
def delta_lon1 (a b : ℕ) : ℕ :=
  let raw := min (wsub a b) (wsub b a)
  let wrapped := wsub full_circle raw
  min raw wrapped

/-- Degree-6 polynomial of `src/main.rs` lines 131-151 applied to one
already-scaled delta: `x² - x⁴*2/6 + x⁶*2/30` with wrapping arithmetic and
scalar divisions. -/
def sin2approx1 (x : ℕ) : ℕ :=
  let x2 := wmul x x
  let x4 := wmul x2 x2
  let x6 := wmul x4 x2
  let c1 := wmul x4 2 / 6
  let c2 := wmul x6 2 / 30
  wadd (wsub x2 c1) c2

/-- `calculate_haversine_distance_squared` of `src/main.rs` lines 90-192 on
the carried plaintexts: deltas, division by the normalization factor 20,
degree-6 polynomial, average-cosine weighting, and final combination. -/
def hav1 (p1 p2 : ClientData1) : ℕ :=
  let dlat := delta_lat1 p1.lat p2.lat
  let dlon := delta_lon1 p1.lon p2.lon
  let lat_scaled := dlat / 20
  let lon_scaled := dlon / 20
  let lat_term := sin2approx1 lat_scaled
  let lon_term := sin2approx1 lon_scaled
  let cos_sum := wadd p1.cos_lat p2.cos_lat
  let avg_cos := cos_sum / (2 * 4)
  let weighted_lon := wmul lon_term avg_cos / (SCALE_FACTOR / 4)
  wadd lat_term weighted_lon

/-- `compare_distances` of `src/main.rs` lines 195-221: computes both terms
and applies `le` (non-strict).  The returned Bool is the decryption of the
produced FheBool. -/
def compare_distances1 (px py pz : ClientData1) : Bool :=
  decide (hav1 px pz ≤ hav1 py pz)

/-- Latitude delta of `src/bin/approach2.rs` line 70: the raw wrapping
subtraction `&p1.lat_rad - &p2.lat_rad`, with no min folding. -/
def delta_lat2 (a b : ℕ) : ℕ := wsub a b

/-- Longitude delta of `src/bin/approach2.rs` lines 71-73:
`(&p1.lon_rad - &p2.lon_rad).min(&(&p2.lon_rad - &p1.lon_rad))`. -/
def delta_lon2 (a b : ℕ) : ℕ := min (wsub a b) (wsub b a)

/-- Power ladder of `src/bin/approach2.rs` line 78: `x * x`. -/
def pow2L (x : ℕ) : ℕ := wmul x x

/-- Power ladder of `src/bin/approach2.rs` line 79: `x4 = x2 * x2`. -/
def pow4L (x : ℕ) : ℕ := wmul (pow2L x) (pow2L x)

/-- Power ladder of `src/bin/approach2.rs` line 80: `x6 = x4 * x2`. -/
def pow6L (x : ℕ) : ℕ := wmul (pow4L x) (pow2L x)

/-- Power ladder of `src/bin/approach2.rs` line 81: `x8 = x6 * x2`. -/
def pow8L (x : ℕ) : ℕ := wmul (pow6L x) (pow2L x)

/-- Power ladder of `src/bin/approach2.rs` line 82: `x10 = x8 * x2`. -/
def pow10L (x : ℕ) : ℕ := wmul (pow8L x) (pow2L x)

/-- Degree-10 series of `src/bin/approach2.rs` lines 84-88:
`x2/4 - x4/192 + x6/23040 - x8/5160960 + x10/1486356480`, left associated
with wrapping add/sub and scalar divisions, over the shared power ladder. -/
def sin2_half2 (x : ℕ) : ℕ :=
  wadd
    (wsub
      (wadd
        (wsub (pow2L x / 4) (pow4L x / 192))
        (pow6L x / 23040))
      (pow8L x / 5160960))
    (pow10L x / 1486356480)

/-- `compute_a_term` of `src/bin/approach2.rs` lines 62-110 on the carried
plaintexts: raw latitude delta, min-folded longitude delta, degree-10
series, cosine product divided by M, and combination. -/
def compute_a_term (p1 p2 : ClientData2) : ℕ :=
  let dlat := delta_lat2 p1.lat_rad p2.lat_rad
  let dlon := delta_lon2 p1.lon_rad p2.lon_rad
  let s_lat := sin2_half2 dlat
  let s_lon := sin2_half2 dlon
  let cos_prod := wmul p1.cos_lat p2.cos_lat / SCALE_FACTOR
  wadd s_lat (wmul cos_prod s_lon)

/-- `compare_distances` of `src/bin/approach2.rs` lines 112-137: computes
both `a` terms and applies `lt` (strict). -/
def compare_distances2 (px py pz : ClientData2) : Bool :=
  decide (compute_a_term px pz < compute_a_term py pz)

/-- Spec-side restatement of the PolynomialApproximator claim: the truncated
Maclaurin expansion `x²/4 - x⁴/192 + x⁶/23040 - x⁸/5160960 + x¹⁰/1486356480`
written with independent modular powers of x, to be compared with the
ladder-built `sin2_half2`. -/
def maclaurin_sin2_half (x : ℕ) : ℕ :=
  wadd
    (wsub
      (wadd
        (wsub (x ^ 2 % U32_MOD / 4) (x ^ 4 % U32_MOD / 192))
        (x ^ 6 % U32_MOD / 23040))
      (x ^ 8 % U32_MOD / 5160960))
    (x ^ 10 % U32_MOD / 1486356480)

/-- Spec-side restatement of the main-variant polynomial as amended:
`x² - 2·x⁴/6 + 2·x⁶/30` with independent modular powers. -/
def main_poly_formula (x : ℕ) : ℕ :=
  wadd
    (wsub (x ^ 2 % U32_MOD) (x ^ 4 % U32_MOD * 2 % U32_MOD / 6))
    (x ^ 6 % U32_MOD * 2 % U32_MOD / 30)

/-- Spec-side restatement of the HaversineTermCombiner claim for approach2:
`a = sin²(Δlat/2) + (cos₁·cos₂/M)·sin²(Δlon/2)` with one
ciphertext-by-ciphertext cosine multiplication followed by division by M. -/
def a_term_formula (p1 p2 : ClientData2) : ℕ :=
  wadd
    (sin2_half2 (delta_lat2 p1.lat_rad p2.lat_rad))
    (wmul (wmul p1.cos_lat p2.cos_lat / SCALE_FACTOR)
      (sin2_half2 (delta_lon2 p1.lon_rad p2.lon_rad)))

/-- Spec-side restatement of the claimed combiner formula applied to the
main-variant pipeline stages: the claim's cosine product `cos₁·cos₂/M`
weighting the main variant's own polynomial terms. -/
def claimed_combine1 (p1 p2 : ClientData1) : ℕ :=
  wadd
    (sin2approx1 (delta_lat1 p1.lat p2.lat / 20))
    (wmul (wmul p1.cos_lat p2.cos_lat / SCALE_FACTOR)
      (sin2approx1 (delta_lon1 p1.lon p2.lon / 20)))

/-- Exact rational value of the f64 constant `std::f64::consts::PI`. -/
def PI_F64 : ℚ := 884279719003555 / 281474976710656

/-- Rust `as u32` cast of an f64 value, modelled exactly on ℚ: truncate
toward zero, saturating at 0 for negative inputs and at `u32::MAX` above. -/
def u32cast (x : ℚ) : ℕ :=
  if x < 0 then 0 else min (Int.toNat ⌊x⌋) (U32_MOD - 1)

/-- Longitude normalization of `src/main.rs` lines 52-56: negative
longitudes are shifted into [0, 360). -/
def normalized_lon (lon : ℚ) : ℚ := if lon < 0 then lon + 360 else lon

/-- Scaled latitude of `src/main.rs` line 61:
`(lat_degrees * SCALE_FACTOR as f64) as u32`. -/
def scaled_lat (lat : ℚ) : ℕ := u32cast (lat * (SCALE_FACTOR : ℚ))

/-- Scaled normalized longitude of `src/main.rs` line 62. -/
def scaled_lon (lon : ℚ) : ℕ := u32cast (normalized_lon lon * (SCALE_FACTOR : ℚ))

/-- Affine trig scaling of `src/main.rs` lines 65-66 and
`src/bin/approach2.rs` lines 45-46: `((v + 1) * SCALE_FACTOR / 2) as u32`
applied to a sine or cosine value v. -/
def scaled_trig (v : ℚ) : ℕ := u32cast ((v + 1) * (SCALE_FACTOR : ℚ) / 2)

/-- Degree-to-radian conversion of `src/bin/approach2.rs` lines 37-38,
using the exact rational value of the f64 π constant. -/
def deg2rad (d : ℚ) : ℚ := d * PI_F64 / 180

/-- Scaled latitude radians of `src/bin/approach2.rs` line 43. -/
def scaled_lat_rad (lat : ℚ) : ℕ := u32cast (deg2rad lat * (SCALE_FACTOR : ℚ))

/-- Scaled longitude radians of `src/bin/approach2.rs` line 44. -/
def scaled_lon_rad (lon : ℚ) : ℕ := u32cast (deg2rad lon * (SCALE_FACTOR : ℚ))

/-- Spec-side decoder undoing the latitude scaling: divide by M. -/
def decode_lat (n : ℕ) : ℚ := (n : ℚ) / (SCALE_FACTOR : ℚ)

/-- Spec-side decoder undoing the longitude scaling: divide by M. -/
def decode_lon (n : ℕ) : ℚ := (n : ℚ) / (SCALE_FACTOR : ℚ)

/-- Spec-side decoder undoing the affine trig map `v ↦ (v+1)·M/2`. -/
def decode_trig (n : ℕ) : ℚ := 2 * (n : ℚ) / (SCALE_FACTOR : ℚ) - 1

/-- One full turn at the radian scale, `⌊2π·M⌋`, the spec's fullTurn for the
approach2 encoding (modelled from the spec: approach2 itself has no full-turn
constant). -/
def full_turn_rad : ℕ := 6283185

/-- A CLI token: either a string that parses as an f64 coordinate, carrying
its value, or one that does not (names never need to parse). -/
inductive Token where
  | num (q : ℚ)
  | raw
deriving DecidableEq

/-- Rust `str::parse::<f64>` on a token, modelled on the outcome. -/
def parse_tok : Token → Option ℚ
  | Token.num q => some q
  | Token.raw => none

/-- A plaintext point as selected by the CLI (the name token does not affect
any computation and is dropped). -/
structure PointM where
  lat : ℚ
  lon : ℚ
deriving DecidableEq

/-- The three built-in default points of `src/main.rs` lines 326-342 and
`src/bin/approach2.rs` lines 141-145: Basel, Lugano, Zurich. -/
def default_points : List PointM :=
  [⟨47.5596, 7.5886⟩, ⟨46.0037, 8.9511⟩, ⟨47.3769, 8.5417⟩]

/-- Argument handling of `src/main.rs` lines 344-371 and
`src/bin/approach2.rs` lines 146-155: with exactly 10 argv entries (program
name plus nine positional arguments) the six coordinate tokens are parsed in
order, any failure propagating as an error; with any other count the
built-in default points are used.  The nested matches mirror the sequential
Rust `?` operators. -/
def cli_select (args : List Token) : Except Unit (List PointM) :=
  if args.length = 10 then
    match parse_tok (args.getD 2 Token.raw) with
    | none => Except.error ()
    | some la1 =>
      match parse_tok (args.getD 3 Token.raw) with
      | none => Except.error ()
      | some lo1 =>
        match parse_tok (args.getD 5 Token.raw) with
        | none => Except.error ()
        | some la2 =>
          match parse_tok (args.getD 6 Token.raw) with
          | none => Except.error ()
          | some lo2 =>
            match parse_tok (args.getD 8 Token.raw) with
            | none => Except.error ()
            | some la3 =>
              match parse_tok (args.getD 9 Token.raw) with
              | none => Except.error ()
              | some lo3 =>
                Except.ok [⟨la1, lo1⟩, ⟨la2, lo2⟩, ⟨la3, lo3⟩]
  else
    Except.ok default_points

/-! ### Helper lemmas on wrapping arithmetic -/

theorem wsub_of_le {a b : ℕ} (hba : b ≤ a) (ha : a < U32_MOD) : wsub a b = a - b := by
  have h : a + U32_MOD - b = (a - b) + U32_MOD := by omega
  rw [wsub, h, Nat.add_mod_right]
  exact Nat.mod_eq_of_lt (by omega)

theorem wsub_of_gt {a b : ℕ} (hab : a < b) (hb : b < U32_MOD) :
    wsub a b = U32_MOD - (b - a) := by
  have h : a + U32_MOD - b = U32_MOD - (b - a) := by omega
  rw [wsub, h]
  exact Nat.mod_eq_of_lt (by omega)

theorem min_wsub_absd {a b : ℕ} (ha : a < U32_MOD) (hb : b < U32_MOD)
    (hd : 2 * (max a b - min a b) ≤ U32_MOD) :
    min (wsub a b) (wsub b a) = max a b - min a b := by
  rcases lt_trichotomy a b with h | h | h
  · rw [wsub_of_gt h hb, wsub_of_le (le_of_lt h) hb]
    omega
  · subst h
    have e : a + U32_MOD - a = U32_MOD := by omega
    rw [wsub, e, Nat.mod_self]
    omega
  · rw [wsub_of_le (le_of_lt h) ha, wsub_of_gt h ha]
    omega

theorem pow2L_eq (x : ℕ) : pow2L x = x ^ 2 % U32_MOD := by
  rw [pow2L, wmul, pow_two]

theorem pow4L_eq (x : ℕ) : pow4L x = x ^ 4 % U32_MOD := by
  rw [pow4L, wmul, pow2L_eq, ← Nat.mul_mod, ← pow_add]

theorem pow6L_eq (x : ℕ) : pow6L x = x ^ 6 % U32_MOD := by
  rw [pow6L, wmul, pow4L_eq, pow2L_eq, ← Nat.mul_mod, ← pow_add]

theorem pow8L_eq (x : ℕ) : pow8L x = x ^ 8 % U32_MOD := by
  rw [pow8L, wmul, pow6L_eq, pow2L_eq, ← Nat.mul_mod, ← pow_add]

theorem pow10L_eq (x : ℕ) : pow10L x = x ^ 10 % U32_MOD := by
  rw [pow10L, wmul, pow8L_eq, pow2L_eq, ← Nat.mul_mod, ← pow_add]

/-! ### Helper lemmas on the rational encoder model -/

theorem u32cast_eq_floor {x : ℚ} (h0 : 0 ≤ x) (hx : x ≤ 4294967295) :
    ((u32cast x : ℕ) : ℚ) = ((⌊x⌋ : ℤ) : ℚ) := by
  have hfl : (0 : ℤ) ≤ ⌊x⌋ := Int.floor_nonneg.mpr h0
  have hup : ⌊x⌋ ≤ 4294967295 := by
    have h1 : ⌊x⌋ ≤ ⌊(4294967295 : ℚ)⌋ := Int.floor_le_floor hx
    have h2 : ⌊(4294967295 : ℚ)⌋ = 4294967295 := by norm_num
    omega
  have hmin : min (Int.toNat ⌊x⌋) (U32_MOD - 1) = Int.toNat ⌊x⌋ := by
    rw [min_eq_left]
    rw [U32_MOD]
    omega
  rw [u32cast, if_neg (not_lt.mpr h0), hmin]
  exact_mod_cast congrArg (fun z : ℤ => (z : ℚ)) (Int.toNat_of_nonneg hfl)

theorem roundtrip_div {y : ℚ} (h0 : 0 ≤ y) (hy : y ≤ 4294967295) :
    |((u32cast y : ℕ) : ℚ) / 1000000 - y / 1000000| < 1 / 1000000 := by
  rw [u32cast_eq_floor h0 hy]
  have l1 : ((⌊y⌋ : ℤ) : ℚ) ≤ y := Int.floor_le y
  have l2 : y - 1 < ((⌊y⌋ : ℤ) : ℚ) := Int.sub_one_lt_floor y
  rw [abs_lt]
  constructor <;> linarith

/-! ### Claim theorems -/

/-- C1 counterexample: with identical candidate points the two closeness
terms are equal, yet `compare_distances` of `src/main.rs` decrypts to true,
because it applies `le` rather than a strict less-than; so the result is not
the strict comparison the claim states. -/
theorem claim1_counterexample :
    compare_distances1 ⟨0, 0, 0, 0⟩ ⟨0, 0, 0, 0⟩ ⟨0, 0, 0, 0⟩ = true ∧
    ¬ hav1 (⟨0, 0, 0, 0⟩ : ClientData1) ⟨0, 0, 0, 0⟩ <
      hav1 (⟨0, 0, 0, 0⟩ : ClientData1) ⟨0, 0, 0, 0⟩ := by
  decide

/-- C1 amended: the approach2 `compare_distances` decrypts to true exactly
when the closeness term of (X,Z) is strictly less than that of (Y,Z); the
main-variant `compare_distances` instead decrypts to true exactly when the
(X,Z) term is less than or equal to the (Y,Z) term. -/
theorem claim1_comparison_semantics (px py pz : ClientData2)
    (qx qy qz : ClientData1) :
    (compare_distances2 px py pz = true ↔
      compute_a_term px pz < compute_a_term py pz) ∧
    (compare_distances1 qx qy qz = true ↔ hav1 qx qz ≤ hav1 qy qz) := by
  constructor <;> simp [compare_distances2, compare_distances1]

/-- C2 counterexample: a southern-hemisphere latitude of -45° encodes to 0,
so decoding returns 0 and the round-trip error is 45 degrees, far above any
epsilon for M = 10^6. -/
theorem claim2_counterexample :
    decode_lat (scaled_lat (-45)) = 0 ∧
    |decode_lat (scaled_lat (-45)) - (-45)| = 45 ∧
    ¬ |decode_lat (scaled_lat (-45)) - (-45)| < 1 / 1000000 := by
  have h : scaled_lat (-45) = 0 := by
    rw [scaled_lat, u32cast, if_pos]
    rw [SCALE_FACTOR]
    norm_num
  rw [h]
  norm_num [decode_lat, SCALE_FACTOR]

/-- C2 amended: the round-trip holds on nonnegative latitudes in [0, 90],
longitudes in the normalized range [0, 360), and sine/cosine values in
[-1, 1] — with error below 1/M for coordinates and at most 2/M for the
affinely mapped trig values; for strictly negative latitudes the float-to-u32
cast saturates at 0 and the round-trip fails. -/
theorem claim2_roundtrip (lat lon v : ℚ) (h1 : 0 ≤ lat) (h2 : lat ≤ 90)
    (h3 : 0 ≤ lon) (h4 : lon < 360) (h5 : -1 ≤ v) (h6 : v ≤ 1) :
    |decode_lat (scaled_lat lat) - lat| < 1 / 1000000 ∧
    |decode_lon (scaled_lon lon) - lon| < 1 / 1000000 ∧
    |decode_trig (scaled_trig v) - v| ≤ 2 / 1000000 := by
  have hM : ((SCALE_FACTOR : ℕ) : ℚ) = 1000000 := by rw [SCALE_FACTOR]; norm_num
  refine ⟨?_, ?_, ?_⟩
  · have h0 : (0 : ℚ) ≤ lat * 1000000 := by linarith
    have hx : lat * 1000000 ≤ 4294967295 := by linarith
    have h := roundtrip_div h0 hx
    rw [decode_lat, scaled_lat, hM]
    have e : lat * 1000000 / 1000000 = lat := by ring
    rw [e] at h
    exact h
  · have hn : normalized_lon lon = lon := by
      rw [normalized_lon, if_neg (not_lt.mpr h3)]
    have h0 : (0 : ℚ) ≤ lon * 1000000 := by linarith
    have hx : lon * 1000000 ≤ 4294967295 := by linarith
    have h := roundtrip_div h0 hx
    rw [decode_lon, scaled_lon, hn, hM]
    have e : lon * 1000000 / 1000000 = lon := by ring
    rw [e] at h
    exact h
  · have h0 : (0 : ℚ) ≤ (v + 1) * 1000000 / 2 := by linarith
    have hx : (v + 1) * 1000000 / 2 ≤ 4294967295 := by linarith
    rw [decode_trig, scaled_trig, hM, u32cast_eq_floor h0 hx]
    have l1 : ((⌊(v + 1) * 1000000 / 2⌋ : ℤ) : ℚ) ≤ (v + 1) * 1000000 / 2 :=
      Int.floor_le _
    have l2 : (v + 1) * 1000000 / 2 - 1 < ((⌊(v + 1) * 1000000 / 2⌋ : ℤ) : ℚ) :=
      Int.sub_one_lt_floor _
    rw [abs_le]
    constructor <;> linarith

/-- C2 witness. -/
theorem claim2_roundtrip_witness :
    |decode_lat (scaled_lat 1) - 1| < 1 / 1000000 ∧
    |decode_lon (scaled_lon 1) - 1| < 1 / 1000000 ∧
    |decode_trig (scaled_trig 0) - 0| ≤ 2 / 1000000 :=
  claim2_roundtrip 1 1 0 (by norm_num) (by norm_num) (by norm_num)
    (by norm_num) (by norm_num) (by norm_num)

/-- C3 counterexample: the approach2 latitude delta is a raw modular
subtraction, so it is not symmetric: for encoded latitudes 0 and 1 it gives
2^32 - 1 one way and 1 the other, and the first is not the minimal unsigned
separation either. -/
theorem claim3_counterexample :
    delta_lat2 0 1 = 4294967295 ∧ delta_lat2 1 0 = 1 ∧
    delta_lat2 0 1 ≠ delta_lat2 1 0 := by
  decide

/-- C3 amended: in the main variant both deltas are symmetric and equal the
minimal unsigned separation of the encoded values (latitude: the absolute
difference; longitude: folded against the full turn); in approach2 the
longitude delta is symmetric and equals the absolute difference, but the
latitude delta is the raw modular difference, which is not symmetric. -/
theorem claim3_delta_symmetry :
    ∀ a b : ℕ, a < 2147483648 → b < 2147483648 →
    ∀ c d : ℕ, c < full_circle → d < full_circle →
      (delta_lat1 a b = delta_lat1 b a ∧
        delta_lat1 a b = max a b - min a b) ∧
      (delta_lon1 c d = delta_lon1 d c ∧
        delta_lon1 c d =
          min (max c d - min c d) (full_circle - (max c d - min c d))) ∧
      (delta_lon2 a b = delta_lon2 b a ∧
        delta_lon2 a b = max a b - min a b) := by
  intro a b ha hb c d hc hd
  have hfc : full_circle = 360000000 := by rw [full_circle, SCALE_FACTOR]
  have haW : a < U32_MOD := by rw [U32_MOD]; omega
  have hbW : b < U32_MOD := by rw [U32_MOD]; omega
  have hcW : c < U32_MOD := by rw [U32_MOD]; omega
  have hdW : d < U32_MOD := by rw [U32_MOD]; omega
  have hab : 2 * (max a b - min a b) ≤ U32_MOD := by rw [U32_MOD]; omega
  have hcd : 2 * (max c d - min c d) ≤ U32_MOD := by rw [U32_MOD]; omega
  have hraw := min_wsub_absd hcW hdW hcd
  have habs := min_wsub_absd haW hbW hab
  refine ⟨⟨?_, ?_⟩, ⟨?_, ?_⟩, ?_, ?_⟩
  · rw [delta_lat1, delta_lat1, min_comm]
  · rw [delta_lat1, habs]
  · rw [delta_lon1, delta_lon1]
    rw [min_comm (wsub c d) (wsub d c)]
  · rw [delta_lon1]
    have hle : max c d - min c d ≤ full_circle := by omega
    have hfcW : full_circle < U32_MOD := by rw [U32_MOD, hfc]; omega
    rw [hraw, wsub_of_le hle hfcW]
  · rw [delta_lon2, delta_lon2, min_comm]
  · rw [delta_lon2, habs]

/-- C3 witness. -/
theorem claim3_delta_symmetry_witness :
    (delta_lat1 5 3 = delta_lat1 3 5 ∧
      delta_lat1 5 3 = max 5 3 - min 5 3) ∧
    (delta_lon1 7 2 = delta_lon1 2 7 ∧
      delta_lon1 7 2 =
        min (max 7 2 - min 7 2) (full_circle - (max 7 2 - min 7 2))) ∧
    (delta_lon2 5 3 = delta_lon2 3 5 ∧
      delta_lon2 5 3 = max 5 3 - min 5 3) :=
  claim3_delta_symmetry 5 3 (by norm_num) (by norm_num) 7 2
    (by rw [full_circle, SCALE_FACTOR]; norm_num)
    (by rw [full_circle, SCALE_FACTOR]; norm_num)

/-- C4 counterexample: approach2 performs no complementary-path folding.
For input longitudes 10° and 350° its encoder yields 174532 and 6108652, the
computed delta is the direct difference 5934120, but the claimed formula
min(|Δλ|, fullTurn − |Δλ|) at the radian scale (fullTurn = ⌊2π·10^6⌋) gives
349065. -/
theorem claim4_counterexample :
    scaled_lon_rad 10 = 174532 ∧ scaled_lon_rad 350 = 6108652 ∧
    delta_lon2 174532 6108652 = 5934120 ∧
    min 5934120 (full_turn_rad - 5934120) = 349065 ∧
    delta_lon2 174532 6108652 ≠
      min 5934120 (full_turn_rad - 5934120) := by
  refine ⟨?_, ?_, by decide, by decide, by decide⟩
  · rw [scaled_lon_rad, u32cast, if_neg]
    · have hf : ⌊deg2rad 10 * ((SCALE_FACTOR : ℕ) : ℚ)⌋ = 174532 := by
        rw [deg2rad, PI_F64, SCALE_FACTOR]
        norm_num
      rw [hf, U32_MOD]
      decide
    · rw [deg2rad, PI_F64, SCALE_FACTOR]
      norm_num
  · rw [scaled_lon_rad, u32cast, if_neg]
    · have hf : ⌊deg2rad 350 * ((SCALE_FACTOR : ℕ) : ℚ)⌋ = 6108652 := by
        rw [deg2rad, PI_F64, SCALE_FACTOR]
        norm_num
      rw [hf, U32_MOD]
      decide
    · rw [deg2rad, PI_F64, SCALE_FACTOR]
      norm_num

/-- C4 amended: in the main variant the longitude delta equals
min(|Δλ|, 360M − |Δλ|) for every pair of encoded longitudes in [0, 360M);
in approach2 the longitude delta is only the unfolded absolute difference of
the encoded values, with no complementary-path candidate. -/
theorem claim4_lon_fold :
    ∀ c d : ℕ, c < full_circle → d < full_circle →
      delta_lon1 c d =
        min (max c d - min c d) (full_circle - (max c d - min c d)) ∧
    ∀ a b : ℕ, a < 2147483648 → b < 2147483648 →
      delta_lon2 a b = max a b - min a b := by
  intro c d hc hd
  have hfc : full_circle = 360000000 := by rw [full_circle, SCALE_FACTOR]
  have hcW : c < U32_MOD := by rw [U32_MOD]; omega
  have hdW : d < U32_MOD := by rw [U32_MOD]; omega
  have hcd : 2 * (max c d - min c d) ≤ U32_MOD := by rw [U32_MOD]; omega
  constructor
  · rw [delta_lon1]
    have hraw := min_wsub_absd hcW hdW hcd
    have hle : max c d - min c d ≤ full_circle := by omega
    have hfcW : full_circle < U32_MOD := by rw [U32_MOD, hfc]; omega
    rw [hraw, wsub_of_le hle hfcW]
  · intro a b ha hb
    have haW : a < U32_MOD := by rw [U32_MOD]; omega
    have hbW : b < U32_MOD := by rw [U32_MOD]; omega
    have hab : 2 * (max a b - min a b) ≤ U32_MOD := by rw [U32_MOD]; omega
    rw [delta_lon2, min_wsub_absd haW hbW hab]

/-- C4 witness. -/
theorem claim4_lon_fold_witness :
    delta_lon1 7 2 =
      min (max 7 2 - min 7 2) (full_circle - (max 7 2 - min 7 2)) ∧
    ∀ a b : ℕ, a < 2147483648 → b < 2147483648 →
      delta_lon2 a b = max a b - min a b :=
  claim4_lon_fold 7 2
    (by rw [full_circle, SCALE_FACTOR]; norm_num)
    (by rw [full_circle, SCALE_FACTOR]; norm_num)

/-- C5 counterexample: the main-variant approximator applied to the delta
x = 10 does not compute the claimed degree-10 Maclaurin expansion. -/
theorem claim5_counterexample :
    sin2approx1 10 = 63433 ∧ maclaurin_sin2_half 10 = 4294967293 ∧
    sin2approx1 10 ≠ maclaurin_sin2_half 10 := by
  decide

/-- C5 amended: approach2 evaluates exactly the claimed truncated Maclaurin
expansion x²/4 − x⁴/192 + x⁶/23040 − x⁸/5160960 + x¹⁰/1486356480 through the
shared power ladder; the main variant instead evaluates the degree-6
polynomial x² − 2x⁴/6 + 2x⁶/30 with a ladder only up to x⁶. -/
theorem claim5_series_ladder (x : ℕ) :
    sin2_half2 x = maclaurin_sin2_half x ∧
    sin2approx1 x = main_poly_formula x := by
  constructor
  · rw [sin2_half2, maclaurin_sin2_half, pow2L_eq, pow4L_eq, pow6L_eq,
      pow8L_eq, pow10L_eq]
  · have h : sin2approx1 x =
        wadd (wsub (pow2L x) (wmul (pow4L x) 2 / 6)) (wmul (pow6L x) 2 / 30) :=
      rfl
    rw [h, pow2L_eq, pow4L_eq, pow6L_eq, main_poly_formula, wmul, wmul]

/-- C6 counterexample: the main-variant combiner does not form the cosine
product; at concrete points with cos encodings 10^6 it returns 12472 while
the claimed formula with cos₁·cos₂/M gives 2733240320. -/
theorem claim6_counterexample :
    hav1 ⟨0, 0, 500000, 1000000⟩ ⟨0, 20000000, 500000, 1000000⟩ = 12472 ∧
    claimed_combine1 ⟨0, 0, 500000, 1000000⟩ ⟨0, 20000000, 500000, 1000000⟩ =
      2733240320 ∧
    hav1 ⟨0, 0, 500000, 1000000⟩ ⟨0, 20000000, 500000, 1000000⟩ ≠
      claimed_combine1 ⟨0, 0, 500000, 1000000⟩ ⟨0, 20000000, 500000, 1000000⟩ := by
  decide

/-- C6 amended: the approach2 combiner returns exactly
a = sin²(Δlat/2) + (cos₁·cos₂/M)·sin²(Δlon/2), computing the cosine product
as one ciphertext-by-ciphertext multiplication followed by the division by
M; the main variant instead weights by an average cosine (cos₁+cos₂)/8 and a
further division by M/4. -/
theorem claim6_a_term (p1 p2 : ClientData2) :
    compute_a_term p1 p2 = a_term_formula p1 p2 := rfl

/-- C7: with M = 10^6 the power-10 ladder overflows 32 bits already at the
tiny encoded delta x = 10: the u32 computation yields 10^10 mod 2^32 =
1410065408, not the exact power 10^10. -/
theorem claim7_overflow :
    pow10L 10 = 1410065408 ∧ (10 : ℕ) ^ 10 = 10000000000 ∧
    pow10L 10 ≠ 10 ^ 10 := by
  decide

/-- C8: at the delta x = 100 — produced by the approach2 delta stage, e.g.
for encoded latitudes 300 and 200 — the first alternating subtraction of the
series has subtrahend x⁴/192 = 520833 exceeding the partial sum x²/4 = 2500,
so the unsigned subtraction wraps around to 4294448963. -/
theorem claim8_series_wraps :
    delta_lat2 300 200 = 100 ∧
    pow2L 100 / 4 = 2500 ∧
    pow4L 100 / 192 = 520833 ∧
    pow2L 100 / 4 < pow4L 100 / 192 ∧
    wsub (pow2L 100 / 4) (pow4L 100 / 192) = 4294448963 := by
  decide

/-- C9 counterexample: called with one positional argument (argv length 2),
the program does not exit with a usage error: it silently falls back to the
built-in default points. -/
theorem claim9_counterexample :
    cli_select [Token.raw, Token.raw] = Except.ok default_points ∧
    cli_select [Token.raw, Token.raw] ≠ Except.error () := by
  have h1 : cli_select [Token.raw, Token.raw] = Except.ok default_points := rfl
  exact ⟨h1, by rw [h1]; exact fun h => Except.noConfusion h⟩

/-- C9 amended: with exactly nine positional arguments the six coordinate
tokens are parsed (before any key generation or encryption) and any
parse failure exits nonzero, while full success uses the provided points;
with any other argument count — not only zero — the program silently uses
the three built-in default points instead of exiting nonzero. -/
theorem claim9_arg_dispatch (args : List Token) :
    (args.length ≠ 10 → cli_select args = Except.ok default_points) ∧
    (∀ la1 lo1 la2 lo2 la3 lo3 : ℚ, args.length = 10 →
      parse_tok (args.getD 2 Token.raw) = some la1 →
      parse_tok (args.getD 3 Token.raw) = some lo1 →
      parse_tok (args.getD 5 Token.raw) = some la2 →
      parse_tok (args.getD 6 Token.raw) = some lo2 →
      parse_tok (args.getD 8 Token.raw) = some la3 →
      parse_tok (args.getD 9 Token.raw) = some lo3 →
      cli_select args = Except.ok [⟨la1, lo1⟩, ⟨la2, lo2⟩, ⟨la3, lo3⟩]) ∧
    (args.length = 10 →
      (parse_tok (args.getD 2 Token.raw) = none ∨
       parse_tok (args.getD 3 Token.raw) = none ∨
       parse_tok (args.getD 5 Token.raw) = none ∨
       parse_tok (args.getD 6 Token.raw) = none ∨
       parse_tok (args.getD 8 Token.raw) = none ∨
       parse_tok (args.getD 9 Token.raw) = none) →
      cli_select args = Except.error ()) := by
  refine ⟨?_, ?_, ?_⟩
  · intro h
    rw [cli_select, if_neg h]
  · intro la1 lo1 la2 lo2 la3 lo3 hlen h2 h3 h5 h6 h8 h9
    rw [cli_select, if_pos hlen, h2, h3, h5, h6, h8, h9]
  · intro hlen hbad
    rw [cli_select, if_pos hlen]
    cases e2 : parse_tok (args.getD 2 Token.raw) with
    | none => rfl
    | some la1 =>
      cases e3 : parse_tok (args.getD 3 Token.raw) with
      | none => rfl
      | some lo1 =>
        cases e5 : parse_tok (args.getD 5 Token.raw) with
        | none => rfl
        | some la2 =>
          cases e6 : parse_tok (args.getD 6 Token.raw) with
          | none => rfl
          | some lo2 =>
            cases e8 : parse_tok (args.getD 8 Token.raw) with
            | none => rfl
            | some la3 =>
              cases e9 : parse_tok (args.getD 9 Token.raw) with
              | none => rfl
              | some lo3 =>
                rcases hbad with h | h | h | h | h | h <;> simp_all

/-- C9 witness. -/
theorem claim9_arg_dispatch_witness :
    cli_select [Token.raw, Token.raw, Token.num 1, Token.num 2, Token.raw,
        Token.num 3, Token.num 4, Token.raw, Token.num 5, Token.num 6] =
      Except.ok [⟨1, 2⟩, ⟨3, 4⟩, ⟨5, 6⟩] ∧
    cli_select [Token.raw] = Except.ok default_points :=
  ⟨(claim9_arg_dispatch _).2.1 1 2 3 4 5 6 rfl rfl rfl rfl rfl rfl rfl,
   (claim9_arg_dispatch _).1 (by decide)⟩

/-- C10: every strictly negative latitude encodes to 0 in the main variant,
and in approach2 the same saturation hits the scaled radians of every
negative latitude and longitude: the float-to-u32 cast of a negative product
saturates at zero. -/
theorem claim10_saturation (lat lon : ℚ) (hlat : lat < 0) (hlon : lon < 0) :
    scaled_lat lat = 0 ∧ scaled_lat_rad lat = 0 ∧ scaled_lon_rad lon = 0 := by
  have hpi : (0 : ℚ) < PI_F64 := by rw [PI_F64]; norm_num
  have hM : (0 : ℚ) < ((SCALE_FACTOR : ℕ) : ℚ) := by rw [SCALE_FACTOR]; norm_num
  have hrad : ∀ q : ℚ, q < 0 → deg2rad q < 0 := by
    intro q hq
    rw [deg2rad]
    apply div_neg_of_neg_of_pos
    · exact mul_neg_of_neg_of_pos hq hpi
    · norm_num
  refine ⟨?_, ?_, ?_⟩
  · rw [scaled_lat, u32cast, if_pos (mul_neg_of_neg_of_pos hlat hM)]
  · rw [scaled_lat_rad, u32cast,
      if_pos (mul_neg_of_neg_of_pos (hrad lat hlat) hM)]
  · rw [scaled_lon_rad, u32cast,
      if_pos (mul_neg_of_neg_of_pos (hrad lon hlon) hM)]

/-- C10 witness. -/
theorem claim10_saturation_witness :
    scaled_lat (-45) = 0 ∧ scaled_lat_rad (-45) = 0 ∧
    scaled_lon_rad (-1) = 0 :=
  claim10_saturation (-45) (-1) (by norm_num) (by norm_num)
